import Mathlib

/-!
Verification of webcapture.py against its specification.

The program is Python glue around a browser-automation library.  We embed the
string-processing logic (URL validation, filename sanitization, keypress
decoding, CLI parsing, menu navigation) as executable Lean functions over
`List Char`, and the orchestration around the external browser and the
external image converter as functions of an explicit oracle describing the
outcome of each external call.  Python strings become `List Char`; the model
of each Python string primitive (strip, lower, replace, split, int) covers
the ASCII fragment exercised by the program.
-/

deriving instance DecidableEq for Except

namespace Webcapture

/-- Python strings are modelled as lists of characters. -/
abbrev Str := List Char

/-- Conversion from a Lean string literal to the model type. -/
def strL (s : String) : Str := s.toList

/-- ASCII whitespace, the fragment of Python str.isspace used by str.strip. -/
def isPySpace (c : Char) : Bool :=
  c = ' ' || c = '\t' || c = '\n' || c = '\r' || c = '\x0b' || c = '\x0c'

/-- Model of Python str.strip(): drop whitespace from both ends. -/
def pyStrip (s : Str) : Str :=
  ((s.dropWhile isPySpace).reverse.dropWhile isPySpace).reverse

/-- Model of Python str.lower() on the ASCII fragment. -/
def pyLower (s : Str) : Str := s.map Char.toLower

/-- leadsWith s pat: pat occurs at the very start of s
(model of Python str.startswith). -/
def leadsWith : Str → Str → Bool
  | _, [] => true
  | [], _ :: _ => false
  | c :: s, p :: ps => c = p && leadsWith s ps

/-- Fuel-driven engine for Python str.replace: replace the leftmost
occurrence of pat, then continue after the replacement (non-overlapping,
left to right).  The fuel is consumed one unit per emitted position, so
fuel = length of the input always suffices. -/
def pyReplaceAux (pat rep : Str) : Nat → Str → Str
  | _, [] => []
  | 0, s => s
  | fuel + 1, c :: s =>
    if pat ≠ [] && leadsWith (c :: s) pat then
      rep ++ pyReplaceAux pat rep fuel ((c :: s).drop pat.length)
    else
      c :: pyReplaceAux pat rep fuel s

/-- Model of Python str.replace(pat, rep) for a nonempty pattern
(the program only ever replaces the nonempty patterns "www." and "."). -/
def pyReplace (s pat rep : Str) : Str := pyReplaceAux pat rep s.length s

/-- Model of Python str.split(sep) for a single-character separator:
split at every occurrence, keeping empty pieces; the result is never empty. -/
def pySplit : Str → Char → List Str
  | [], _ => [[]]
  | c :: rest, sep =>
    if c = sep then [] :: pySplit rest sep
    else
      match pySplit rest sep with
      | t :: ts => (c :: t) :: ts
      | [] => [[c]]

/-- Numeric value of an ASCII digit. -/
def digitVal (c : Char) : Nat := c.toNat - 48

/-- Digits of a Python integer literal after the first digit: an underscore
is allowed only between two digits (Python int() grammar). -/
def pyDigitsGo : List Char → Nat → Option Nat
  | [], acc => some acc
  | c :: rest, acc =>
    if c.isDigit then pyDigitsGo rest (acc * 10 + digitVal c)
    else if c = '_' then
      match rest with
      | d :: rest2 =>
        if d.isDigit then pyDigitsGo rest2 (acc * 10 + digitVal d) else none
      | [] => none
    else none

/-- Unsigned digit part of a Python integer literal: at least one digit,
underscores only between digits. -/
def pyDigits : List Char → Option Nat
  | [] => none
  | c :: rest => if c.isDigit then pyDigitsGo rest (digitVal c) else none

/-- Model of Python int(s) on the ASCII base-10 fragment: surrounding
whitespace stripped, optional sign, digits with internal underscores. -/
def pyInt (s : Str) : Option Int :=
  match pyStrip s with
  | '+' :: rest => (pyDigits rest).map (fun n => (n : Int))
  | '-' :: rest => (pyDigits rest).map (fun n => -(n : Int))
  | t => (pyDigits t).map (fun n => (n : Int))

/-- Characters allowed in a URL scheme after the first
(CPython scheme_chars: ASCII letters, digits, plus, minus, dot). -/
def schemeCharOk (c : Char) : Bool :=
  c.isAlpha || c.isDigit || c = '+' || c = '-' || c = '.'

/-- The scheme-splitting step of CPython urlsplit: if the text before the
first colon is nonempty, starts with an ASCII letter and consists of scheme
characters, it is the (lowercased) scheme and parsing continues after the
colon; otherwise the scheme is empty and the input is left whole. -/
def splitScheme (url : Str) : Str × Str :=
  let pre := url.takeWhile (fun c => c != ':')
  let post := url.dropWhile (fun c => c != ':')
  match post with
  | [] => ([], url)
  | _ :: rest =>
    if pre ≠ [] &&
       (match url with | c :: _ => c.isAlpha | [] => false) &&
       pre.all schemeCharOk then
      (pyLower pre, rest)
    else ([], url)

/-- A character belonging to the netloc: anything before the first slash,
question mark or hash (CPython urlsplit netloc delimiter scan). -/
def netlocChar (c : Char) : Bool := !(c = '/' || c = '?' || c = '#')

/-- Model of the scheme/netloc fragment of CPython urllib.parse.urlparse,
the only fields the program reads.  Returns (scheme, netloc), or an error
for the mismatched-bracket netlocs on which CPython raises ValueError.
The model covers the ASCII inputs the program handles; the further
CPython error cases (bracketed-host validation, NFKC netloc check) are
additional error outcomes of the same shape, and every caller in the
program either catches all errors or is exercised only on URLs already
validated. -/
def pyUrlsplitSN (url : Str) : Except Str (Str × Str) :=
  let sr := splitScheme url
  if leadsWith sr.2 (strL "//") then
    let netloc := (sr.2.drop 2).takeWhile netlocChar
    if (netloc.contains '[' && !(netloc.contains ']')) ||
       (netloc.contains ']' && !(netloc.contains '[')) then
      Except.error (strL "Invalid IPv6 URL")
    else Except.ok (sr.1, netloc)
  else Except.ok (sr.1, [])

/-- webcapture.py validate_url, lines 67-78: test for an http or https
scheme at the front of the raw input. -/
def hasHttp (s : Str) : Bool :=
  leadsWith s (strL "http://") || leadsWith s (strL "https://")

/-- The prepending step of validate_url: an input without an http or https
scheme is given the https scheme. -/
def prepUrl (s : Str) : Str :=
  if hasHttp s then s else strL "https://" ++ s

/-- webcapture.py validate_url, lines 67-78: prepend https when needed,
parse, and return the URL when both scheme and netloc are nonempty; any
parse exception is caught and yields None. -/
def validate_url (s : Str) : Option Str :=
  let u := prepUrl s
  match pyUrlsplitSN u with
  | Except.error _ => none
  | Except.ok sn => if sn.1 ≠ [] ∧ sn.2 ≠ [] then some u else none

/-- The pattern removed by sanitize_filename. -/
def wwwDot : Str := strL "www."

/-- webcapture.py sanitize_filename, lines 81-86: take the netloc of the
URL, remove the text "www." via str.replace (all occurrences), then
replace every dot with a dash.  The urlparse call is unprotected, so a
parse error propagates, modelled by the Except result. -/
def sanitize_filename (url : Str) : Except Str Str :=
  match pyUrlsplitSN url with
  | Except.error e => Except.error e
  | Except.ok sn =>
    Except.ok (pyReplace (pyReplace sn.2 wwwDot []) (strL ".") (strL "-"))

/-- The filename stem the claim describes: strip exactly one leading
"www." from the host (a non-leading occurrence is left in place), then
replace every dot with a dash. -/
def claimStem (host : Str) : Str :=
  let h := if leadsWith host wwwDot then host.drop wwwDot.length else host
  h.map (fun c => if c = '.' then '-' else c)

/-- Removal of every left-to-right non-overlapping occurrence of a pattern,
stated independently of pyReplace, for the amended claim. -/
def removeOccs (pat : Str) : Nat → Str → Str
  | _, [] => []
  | 0, s => s
  | fuel + 1, c :: s =>
    if pat ≠ [] && leadsWith (c :: s) pat then
      removeOccs pat fuel ((c :: s).drop pat.length)
    else
      c :: removeOccs pat fuel s

/-- Remove every occurrence of "www." from a host. -/
def removeAllWww (h : Str) : Str := removeOccs wwwDot h.length h

/-- Replace every dot by a dash, character by character. -/
def mapDots (h : Str) : Str := h.map (fun c => if c = '.' then '-' else c)

/-- webcapture.py get_key, raw-terminal path, lines 334-349: the pending
terminal bytes are modelled as a list; reading k bytes takes up to k
(fewer at end of stream, matching read at EOF).  An ESC byte pulls two more
bytes; ESC [ A and ESC [ B decode to the up and down keys, any other ESC
sequence is returned verbatim; carriage return and newline decode to enter,
0x03 to quit, and any other byte is returned as itself. -/
def get_key_raw (input : Str) : Str :=
  let ch := input.take 1
  if ch = ['\x1b'] then
    let ch3 := input.take 3
    if ch3 = strL "\x1b[A" then strL "up"
    else if ch3 = strL "\x1b[B" then strL "down"
    else ch3
  else if ch = ['\r'] || ch = ['\n'] then strL "enter"
  else if ch = ['\x03'] then strL "quit"
  else ch

/-- One line read by Python input(): the characters before the first
newline of the stream. -/
def readLine (s : Str) : Str := s.takeWhile (fun c => c != '\n')

/-- webcapture.py get_key, lines 325-354: the raw path when a terminal is
available; otherwise the fallback of line 354, which returns the stripped
line of input verbatim. -/
def get_key (isTty : Bool) (input : Str) : Str :=
  if isTty then get_key_raw input else pyStrip (readLine input)

/-- The five menu options of interactive_mode, lines 360-366. -/
def menu_options : List Str :=
  [strL "Single width (default: desktop 1920px)",
   strL "Multiple widths (mobile, tablet, desktop)",
   strL "Custom width(s)",
   strL "Advanced options",
   strL "Exit"]

/-- webcapture.py interactive_mode, lines 374-386: the effect of one key on
the selected index.  The up and down keys move with Python modulo
wraparound; every other key (including enter and quit, which leave the
loop) leaves the index unchanged. -/
def menu_step (options : List Str) (selected : Int) (key : Str) : Int :=
  if key = strL "up" then (selected - 1) % (options.length : Int)
  else if key = strL "down" then (selected + 1) % (options.length : Int)
  else selected

/-- The recognized output formats, webcapture.py lines 426 and 556. -/
def validFormats : List Str := [strL "png", strL "jpeg", strL "webp"]

/-- webcapture.py cli_mode, lines 554-558: lowercase the --format argument;
a value outside the recognized formats is replaced by png with a warning
(the Bool records whether the warning was printed). -/
def cli_format (arg : Str) : Str × Bool :=
  let f := pyLower arg
  if validFormats.contains f then (f, false) else (strL "png", true)

/-- webcapture.py handle_menu_selection, lines 424-427: strip and lowercase
the prompt answer, default empty input to png, and silently replace an
unrecognized value by png (no warning is printed on this path). -/
def menu_format (line : Str) : Str :=
  let f0 := pyLower (pyStrip line)
  let f := if f0 = [] then strL "png" else f0
  if validFormats.contains f then f else strL "png"

/-- webcapture.py advanced_options, lines 489-490: strip and lowercase the
prompt answer and default empty input to png; no validation is performed,
so any other value passes through unchanged. -/
def advanced_format (line : Str) : Str :=
  let f0 := pyLower (pyStrip line)
  if f0 = [] then strL "png" else f0

/-- webcapture.py PRESETS, lines 30-40: the preset width table. -/
def PRESETS : List (Str × Int) :=
  [(strL "mobile", 375),
   (strL "tablet", 768),
   (strL "small", 1024),
   (strL "laptop", 1440),
   (strL "medium", 1366),
   (strL "desktop", 1920),
   (strL "large", 2560),
   (strL "ultrawide", 3440),
   (strL "presentation", 1280)]

/-- Membership test and value for the preset dictionary. -/
def lookupPreset (s : Str) : Option Int := PRESETS.lookup s

/-- webcapture.py DEFAULT_WIDTH, line 42. -/
def DEFAULT_WIDTH : Int := 1920

/-- The shared token loop of cli_mode lines 541-549 and advanced_options
lines 473-481: each comma token is stripped and lowercased; a preset name
yields its width, an integer literal its value, and any other token is
skipped while its text is recorded as a printed warning (second
component). -/
def parse_widths_loop : List Str → List Int × List Str
  | [] => ([], [])
  | t :: ts =>
    let item := pyLower (pyStrip t)
    let r := parse_widths_loop ts
    match lookupPreset item with
    | some w => (w :: r.1, r.2)
    | none =>
      match pyInt item with
      | some n => (n :: r.1, r.2)
      | none => (r.1, item :: r.2)

/-- webcapture.py cli_mode, lines 539-552: the --widths argument may be
absent or empty (both falsy in Python); otherwise it is split on commas
and fed to the token loop; an empty resulting list is replaced by the
single default width. -/
def cli_parse_widths (arg : Option Str) : List Int × List Str :=
  match arg with
  | none => ([DEFAULT_WIDTH], [])
  | some s =>
    if s = [] then ([DEFAULT_WIDTH], [])
    else
      let r := parse_widths_loop (pySplit s ',')
      (if r.1 = [] then [DEFAULT_WIDTH] else r.1, r.2)

/-- All-or-nothing traversal used to model a Python list comprehension
inside try/except: the first failing element aborts the whole list. -/
def mapOptionAll (f : Str → Option Int) : List Str → Option (List Int)
  | [] => some []
  | a :: l =>
    match f a, mapOptionAll f l with
    | some b, some bs => some (b :: bs)
    | _, _ => none

/-- webcapture.py handle_menu_selection, lines 412-419: the custom-width
prompt parses every comma token with int(token.strip()); any failure makes
the whole prompt fail (none). -/
def custom_widths (line : Str) : Option (List Int) :=
  mapOptionAll (fun w => pyInt (pyStrip w)) (pySplit line ',')

/-- webcapture.py advanced_options, lines 472-486: same token loop as
cli_mode, but an empty resulting width list is an error (none) instead of
the default width. -/
def advanced_widths (line : Str) : Option (List Int) × List Str :=
  let r := parse_widths_loop (pySplit line ',')
  (if r.1 = [] then none else some r.1, r.2)

/-- Outcome of the external ImageMagick convert subprocess,
webcapture.py lines 295-311: it can succeed, be absent
(FileNotFoundError), or exit non-zero (CalledProcessError). -/
inductive ConvOutcome
  | success
  | toolAbsent
  | toolFailed
deriving DecidableEq

/-- Effect of _convert_to_webp on the files and the console: whether the
webp file was produced, whether the intermediate png remains on disk, and
whether the recoverable-failure diagnostics were printed. -/
structure ConvResult where
  webpCreated : Bool
  pngKept : Bool
  warned : Bool
deriving DecidableEq

/-- webcapture.py _convert_to_webp, lines 295-311: on success the
intermediate png is unlinked; on a missing tool or a failing exit the
exception is caught, the png is kept and diagnostics are printed; no
exception escapes. -/
def convert_to_webp : ConvOutcome → ConvResult
  | ConvOutcome.success => ⟨true, false, false⟩
  | ConvOutcome.toolAbsent => ⟨false, true, true⟩
  | ConvOutcome.toolFailed => ⟨false, true, true⟩

/-- Oracle for one capture_screenshot call: whether playwright imports,
whether the launch/context/page/goto sequence raises, whether the
screenshot call raises, and the outcome of the convert subprocess. -/
structure BrowserWorld where
  playwrightInstalled : Bool
  nav : Except Str Unit
  shot : Except Str Unit
  conv : ConvOutcome

/-- Result of one capture_screenshot call: the returned boolean, and the
conversion effect when the webp path ran. -/
structure CaptureResult where
  ok : Bool
  conv : Option ConvResult

/-- webcapture.py capture_screenshot, non-interactive path, lines 193-292:
a missing playwright returns False; any exception in the browser block is
caught by the except of line 290 and returns False; on a successful
screenshot with a webp target the png is captured first and handed to
convert_to_webp, and the call returns True whatever the conversion did.
No exception escapes: the function is total with a Bool result. -/
def capture_screenshot (w : BrowserWorld) (isWebp : Bool) : CaptureResult :=
  if !w.playwrightInstalled then ⟨false, none⟩
  else
    match w.nav with
    | Except.error _ => ⟨false, none⟩
    | Except.ok _ =>
      match w.shot with
      | Except.error _ => ⟨false, none⟩
      | Except.ok _ =>
        if isWebp then ⟨true, some (convert_to_webp w.conv)⟩
        else ⟨true, none⟩

/-- Whether a file exists at output_path after capture_screenshot returned
True: for png and jpeg the screenshot call wrote output_path itself, so it
exists; for webp the screenshot wrote only the intermediate png and the
file at output_path exists exactly when the conversion created it. -/
def output_exists (w : BrowserWorld) (isWebp : Bool) : Bool :=
  if isWebp then (convert_to_webp w.conv).webpCreated else true

/-- webcapture.py cli_mode, lines 573-582: the batch loop body.  On a True
capture the code runs output_path.stat() unprotected (line 578) before
print_success; if the file at output_path is missing (webp requested and
the conversion failed or the tool was absent) that call raises
FileNotFoundError, and neither cli_mode nor main catches it, so the loop
aborts: the remaining widths are never attempted and nothing more is
printed.  Otherwise the loop records a success line and increments the
counter, or records a failure line, and continues.  The accumulators are
the success counter and the report lines printed so far (reversed). -/
def cli_batch_loop (env : Int → BrowserWorld) (isWebp : Bool) :
    List Int → Nat → List (Int × Bool) →
      Except Str (Nat × List (Int × Bool))
  | [], acc, out => Except.ok (acc, out.reverse)
  | w :: rest, acc, out =>
    if (capture_screenshot (env w) isWebp).ok then
      if output_exists (env w) isWebp then
        cli_batch_loop env isWebp rest (acc + 1) ((w, true) :: out)
      else Except.error (strL "FileNotFoundError")
    else cli_batch_loop env isWebp rest acc ((w, false) :: out)

/-- webcapture.py cli_mode, lines 573-584: run the batch loop; on normal
completion line 584 prints the aggregate pair (success_count, number of
widths) next to the per-width report lines; when line 578 raised, the
exception propagates and no aggregate is printed. -/
def cli_batch_summary (env : Int → BrowserWorld) (isWebp : Bool)
    (widths : List Int) :
    Except Str ((Nat × Nat) × List (Int × Bool)) :=
  match cli_batch_loop env isWebp widths 0 [] with
  | Except.error e => Except.error e
  | Except.ok r => Except.ok ((r.1, widths.length), r.2)

/-- Replacing by the empty string is removal of every occurrence. -/
theorem pyReplaceAux_nil_rep (pat : Str) :
    ∀ fuel s, pyReplaceAux pat [] fuel s = removeOccs pat fuel s := by
  intro fuel
  induction fuel with
  | zero => intro s; cases s <;> rfl
  | succ f ih =>
    intro s
    cases s with
    | nil => rfl
    | cons c rest =>
      simp only [pyReplaceAux, removeOccs]
      by_cases h : (pat ≠ [] && leadsWith (c :: rest) pat) = true
      · simp [h, ih]
      · simp [h, ih]

/-- Replacing the single-character pattern dot by dash is the
character-by-character map, given enough fuel. -/
theorem pyReplaceAux_dot_dash :
    ∀ fuel s, s.length ≤ fuel →
      pyReplaceAux ['.'] ['-'] fuel s = mapDots s := by
  intro fuel
  induction fuel with
  | zero =>
    intro s h
    cases s with
    | nil => rfl
    | cons c rest => simp at h
  | succ f ih =>
    intro s h
    cases s with
    | nil => rfl
    | cons c rest =>
      simp only [List.length_cons, Nat.succ_le_succ_iff] at h
      simp only [pyReplaceAux, mapDots, List.map_cons]
      by_cases hc : c = '.'
      · subst hc
        have hcond : ((['.'] : Str) ≠ [] && leadsWith ('.' :: rest) ['.']) = true := by
          simp [leadsWith]
        rw [if_pos hcond]
        simp only [List.length_cons, List.length_nil, List.drop_succ_cons,
          List.drop_zero, List.singleton_append]
        rw [ih rest h]
        simp [mapDots]
      · have hcond : ¬ ((['.'] : Str) ≠ [] && leadsWith (c :: rest) ['.']) = true := by
          simp [leadsWith, hc]
        rw [if_neg hcond]
        rw [ih rest h]
        simp [hc, mapDots]

/-- C1 (corrected). The filename builder extracts the host from the URL and
removes every left-to-right non-overlapping occurrence of "www." (not only
a leading one), then replaces every dot by a dash. -/
theorem c1_sanitize_replaces_all_www :
    ∀ url sc host, pyUrlsplitSN url = Except.ok (sc, host) →
      sanitize_filename url = Except.ok (mapDots (removeAllWww host)) := by
  intro url sc host h
  simp only [sanitize_filename, h]
  have h1 : pyReplace host wwwDot [] = removeAllWww host := by
    simp only [pyReplace, removeAllWww]
    exact pyReplaceAux_nil_rep wwwDot host.length host
  rw [h1]
  simp only [pyReplace]
  have ed : strL "." = ['.'] := rfl
  have eh : strL "-" = ['-'] := rfl
  rw [ed, eh]
  exact congrArg Except.ok (pyReplaceAux_dot_dash _ _ le_rfl)

/-- C1 counterexample. On the URL https://foo.www.example.com the host is
foo.www.example.com, whose only "www." occurrence is not leading; the code
removes it anyway, producing foo-example-com, while the claim requires
foo-www-example-com. -/
theorem c1_sanitize_counterexample :
    pyUrlsplitSN (strL "https://foo.www.example.com") =
      Except.ok (strL "https", strL "foo.www.example.com") ∧
    sanitize_filename (strL "https://foo.www.example.com") =
      Except.ok (strL "foo-example-com") ∧
    claimStem (strL "foo.www.example.com") = strL "foo-www-example-com" ∧
    sanitize_filename (strL "https://foo.www.example.com") ≠
      Except.ok (claimStem (strL "foo.www.example.com")) := by
  decide

/-- C1 witness: the amended theorem applied to a concrete URL. -/
theorem c1_sanitize_witness :
    sanitize_filename (strL "https://www.example.com") =
      Except.ok (mapDots (removeAllWww (strL "www.example.com"))) :=
  c1_sanitize_replaces_all_www (strL "https://www.example.com")
    (strL "https") (strL "www.example.com") (by decide)

/-- C2 (confirmed). validate_url prepends https exactly when the input
lacks an http or https scheme, succeeds with the normalized URL exactly
when the parse yields a nonempty scheme and a nonempty host, returns the
None sentinel otherwise, and maps a parse exception to the sentinel rather
than letting it escape. -/
theorem c2_validate_url_spec :
    ∀ s : Str,
      (hasHttp s = false → prepUrl s = strL "https://" ++ s) ∧
      (hasHttp s = true → prepUrl s = s) ∧
      (∀ e, pyUrlsplitSN (prepUrl s) = Except.error e → validate_url s = none) ∧
      (∀ sc nl, pyUrlsplitSN (prepUrl s) = Except.ok (sc, nl) →
        (sc ≠ [] ∧ nl ≠ [] → validate_url s = some (prepUrl s)) ∧
        (¬(sc ≠ [] ∧ nl ≠ []) → validate_url s = none)) ∧
      (∀ u, validate_url s = some u → u = prepUrl s) := by
  intro s
  refine ⟨?_, ?_, ?_, ?_, ?_⟩
  · intro h; simp [prepUrl, h]
  · intro h; simp [prepUrl, h]
  · intro e he; simp [validate_url, he]
  · intro sc nl h
    constructor
    · intro hc; simp [validate_url, h, hc.1, hc.2]
    · intro hc; simp only [validate_url, h]; rw [if_neg hc]
  · intro u hu
    cases hp : pyUrlsplitSN (prepUrl s) with
    | error e => simp [validate_url, hp] at hu
    | ok sn =>
      simp only [validate_url, hp] at hu
      by_cases hc : sn.1 ≠ [] ∧ sn.2 ≠ []
      · rw [if_pos hc] at hu; exact (Option.some_injective _ hu).symm
      · rw [if_neg hc] at hu; simp at hu

/-- C2 witness: a schemeless input gains https and validates. -/
theorem c2_validate_url_witness :
    validate_url (strL "example.com") = some (prepUrl (strL "example.com")) :=
  ((c2_validate_url_spec (strL "example.com")).2.2.2.1 (strL "https")
    (strL "example.com") (by decide)).1 (by decide)

/-- A successful validation forces the returned URL to be the prepended
input and the parse to have succeeded with nonempty scheme and host. -/
theorem validate_url_some (s u : Str) (h : validate_url s = some u) :
    u = prepUrl s ∧
      ∃ sc nl, pyUrlsplitSN (prepUrl s) = Except.ok (sc, nl) ∧
        sc ≠ [] ∧ nl ≠ [] := by
  cases hp : pyUrlsplitSN (prepUrl s) with
  | error e => simp [validate_url, hp] at h
  | ok sn =>
    obtain ⟨s1, s2⟩ := sn
    simp only [validate_url, hp] at h
    by_cases hc : s1 ≠ [] ∧ s2 ≠ []
    · rw [if_pos hc] at h
      exact ⟨(Option.some_injective _ h).symm, s1, s2, rfl, hc⟩
    · rw [if_neg hc] at h; simp at h

/-- Appending places the pattern at the front. -/
theorem leadsWith_append (p x : Str) : leadsWith (p ++ x) p = true := by
  induction p with
  | nil => cases x <;> rfl
  | cons c p ih => simp [leadsWith, ih]

/-- C10 (confirmed). URL validation is idempotent: a URL returned by a
successful validation validates again to itself. -/
theorem c10_validate_idempotent :
    ∀ s u, validate_url s = some u → validate_url u = some u := by
  intro s u h
  obtain ⟨hu, sc, nl, hp, hsc, hnl⟩ := validate_url_some s u h
  have hhttp : hasHttp u = true := by
    subst hu
    by_cases hs : hasHttp s
    · simp [prepUrl, hs]
    · simp only [prepUrl, hs, if_neg, Bool.false_eq_true, if_false]
      simp [hasHttp, leadsWith_append]
  have hprep : prepUrl u = u := by simp [prepUrl, hhttp]
  subst hu
  simp only [validate_url, hprep, hp]
  rw [if_pos ⟨hsc, hnl⟩]

/-- C10 witness: the idempotence theorem at a concrete input. -/
theorem c10_validate_idempotent_witness :
    validate_url (strL "https://example.com") =
      some (strL "https://example.com") :=
  c10_validate_idempotent (strL "example.com") (strL "https://example.com")
    (by decide)

/-- takeWhile over a block satisfying the predicate followed by a failing
character returns exactly the block. -/
theorem takeWhileAppend (p : Char → Bool) (w : Str) (a : Char) (s : Str)
    (hw : w.all p = true) (ha : p a = false) :
    (w ++ a :: s).takeWhile p = w := by
  induction w with
  | nil => simp [List.takeWhile_cons, ha]
  | cons c w ih =>
    simp only [List.all_cons, Bool.and_eq_true] at hw
    simp [List.takeWhile_cons, hw.1, ih hw.2]

/-- dropWhile is the identity when no element satisfies the predicate. -/
theorem dropWhileAllNot (p : Char → Bool) (w : Str)
    (hw : w.all (fun c => !p c) = true) : w.dropWhile p = w := by
  cases w with
  | nil => rfl
  | cons c w =>
    simp only [List.all_cons, Bool.and_eq_true, Bool.not_eq_eq_eq_not,
      Bool.not_true] at hw
    simp [List.dropWhile_cons, hw.1]

/-- Stripping leaves a fully non-whitespace string unchanged. -/
theorem pyStripAllNot (w : Str) (hw : w.all (fun c => !isPySpace c) = true) :
    pyStrip w = w := by
  have h2 : w.reverse.all (fun c => !isPySpace c) = true := by
    simpa [List.all_reverse] using hw
  simp [pyStrip, dropWhileAllNot _ _ hw, dropWhileAllNot _ _ h2]

/-- C3 (corrected). The raw-terminal reader follows the classification
table: ESC [ A is up, ESC [ B is down, carriage return and newline are
enter, 0x03 is quit, and any other single byte is returned as itself
(the Other event).  The fallback without a TTY, however, does not apply
that classification to the first character of the line: it returns the
whitespace-stripped line verbatim, so a whitespace-free typed word is the
key value itself and a bare line yields the empty string, not Enter. -/
theorem c3_get_key_amended :
    (∀ rest, get_key true ('\x1b' :: '[' :: 'A' :: rest) = strL "up") ∧
    (∀ rest, get_key true ('\x1b' :: '[' :: 'B' :: rest) = strL "down") ∧
    (∀ rest, get_key true ('\r' :: rest) = strL "enter") ∧
    (∀ rest, get_key true ('\n' :: rest) = strL "enter") ∧
    (∀ rest, get_key true ('\x03' :: rest) = strL "quit") ∧
    (∀ c rest, c ≠ '\x1b' → c ≠ '\r' → c ≠ '\n' → c ≠ '\x03' →
      get_key true (c :: rest) = [c]) ∧
    (∀ w s, w.all (fun c => !isPySpace c) = true →
      get_key false (w ++ '\n' :: s) = w) ∧
    (∀ s, get_key false ('\n' :: s) = []) := by
  refine ⟨fun rest => rfl, fun rest => rfl, fun rest => rfl, fun rest => rfl,
    fun rest => rfl, ?_, ?_, fun s => rfl⟩
  · intro c rest h1 h2 h3 h4
    simp [get_key, get_key_raw, List.take, h1, h2, h3, h4]
  · intro w s hw
    have hw' : w.all (fun c => c != '\n') = true := by
      rw [List.all_eq_true] at hw ⊢
      intro c hc
      have hx := hw c hc
      simp only [Bool.not_eq_eq_eq_not, Bool.not_true, isPySpace] at hx
      simp only [Bool.or_eq_false_iff] at hx
      simp only [bne_iff_ne, ne_eq]
      intro hcn
      subst hcn
      simp at hx
    have h1 : readLine (w ++ '\n' :: s) = w := by
      simp only [readLine]
      exact takeWhileAppend _ _ _ _ hw' (by decide)
    simp [get_key, h1, pyStripAllNot w hw]

/-- C3 counterexample. In the non-TTY fallback a bare line (the user just
presses return) yields the empty string, not the Enter event the claim
requires. -/
theorem c3_get_key_counterexample :
    get_key false (strL "\n") = [] ∧
    get_key false (strL "\n") ≠ strL "enter" := by decide

/-- C3 witness: the amended theorem at concrete inputs. -/
theorem c3_get_key_witness :
    get_key false (strL "up" ++ '\n' :: []) = strL "up" :=
  c3_get_key_amended.2.2.2.2.2.2.1 (strL "up") [] (by decide)

/-- C4 (corrected). Only the CLI entry substitutes png with a warning for
a format outside png, jpeg, webp.  The basic interactive prompt
substitutes png silently (its result is always a recognized format), and
the advanced-options prompt performs no validation at all: a nonempty
answer passes through unchanged, and only an empty answer defaults to
png. -/
theorem c4_format_fallback_amended :
    (∀ arg, validFormats.contains (pyLower arg) = true →
      cli_format arg = (pyLower arg, false)) ∧
    (∀ arg, validFormats.contains (pyLower arg) = false →
      cli_format arg = (strL "png", true)) ∧
    (∀ line, validFormats.contains (menu_format line) = true) ∧
    (∀ line, pyLower (pyStrip line) ≠ [] →
      advanced_format line = pyLower (pyStrip line)) ∧
    advanced_format [] = strL "png" := by
  refine ⟨?_, ?_, ?_, ?_, by decide⟩
  · intro arg h
    simp only [cli_format]
    rw [if_pos h]
  · intro arg h
    simp only [cli_format]
    rw [if_neg (by rw [h]; simp)]
  · intro line
    simp only [menu_format]
    by_cases h0 : pyLower (pyStrip line) = []
    · rw [if_pos h0]
      norm_num
      decide
    · rw [if_neg h0]
      by_cases hv : validFormats.contains (pyLower (pyStrip line)) = true
      · rw [if_pos hv]; exact hv
      · rw [if_neg hv]; decide
  · intro line h; simp [advanced_format, h]

/-- C4 counterexample. The advanced-options prompt passes the
unrecognized format gif through unchanged instead of substituting png. -/
theorem c4_format_fallback_counterexample :
    advanced_format (strL "gif") = strL "gif" ∧
    validFormats.contains (strL "gif") = false ∧
    advanced_format (strL "gif") ≠ strL "png" := by decide

/-- C4 witness: the amended theorem at a concrete input. -/
theorem c4_format_fallback_witness :
    cli_format (strL "gif") = (strL "png", true) :=
  c4_format_fallback_amended.2.1 (strL "gif") (by decide)

/-- Elements of a successful all-or-nothing traversal all come from a
successful application of the function to some input element. -/
theorem mapOptionAll_mem (f : Str → Option Int) :
    ∀ l res, mapOptionAll f l = some res →
      ∀ b ∈ res, ∃ a ∈ l, f a = some b := by
  intro l
  induction l with
  | nil =>
    intro res h b hb
    simp only [mapOptionAll, Option.some_inj] at h
    subst h
    simp at hb
  | cons a l ih =>
    intro res h b hb
    simp only [mapOptionAll] at h
    cases hfa : f a with
    | none => rw [hfa] at h; simp at h
    | some v =>
      rw [hfa] at h
      cases hml : mapOptionAll f l with
      | none => rw [hml] at h; simp at h
      | some vs =>
        rw [hml] at h
        simp only [Option.some_inj] at h
        subst h
        rcases List.mem_cons.mp hb with hb | hb
        · exact ⟨a, List.mem_cons_self a l, by rw [hfa, hb]⟩
        · obtain ⟨x, hx, hfx⟩ := ih vs hml b hb
          exact ⟨x, List.mem_cons_of_mem _ hx, hfx⟩

/-- C5 (corrected). The width-parsing paths enforce no positivity: a token
whose normalized form is an integer literal is accepted with its exact
value, whatever its sign; only the preset values and the default 1920 are
guaranteed positive, and the custom-width prompt likewise returns exactly
the integer values of its tokens with no sign check. -/
theorem c5_widths_amended :
    (∀ tok ts n, lookupPreset (pyLower (pyStrip tok)) = none →
      pyInt (pyLower (pyStrip tok)) = some n →
      parse_widths_loop (tok :: ts) =
        (n :: (parse_widths_loop ts).1, (parse_widths_loop ts).2)) ∧
    (∀ p ∈ PRESETS, 0 < p.2) ∧
    (0 < DEFAULT_WIDTH) ∧
    (∀ line ws, custom_widths line = some ws →
      ∀ x ∈ ws, ∃ tok ∈ pySplit line ',', pyInt (pyStrip tok) = some x) := by
  refine ⟨?_, by decide, by decide, ?_⟩
  · intro tok ts n h1 h2
    simp [parse_widths_loop, h1, h2]
  · intro line ws h x hx
    exact mapOptionAll_mem _ _ _ h x hx

/-- C5 counterexample. The CLI width list accepts the token 0 and produces
the width 0, which is not positive; the custom-width prompt likewise
accepts 0 and -5. -/
theorem c5_widths_counterexample :
    (0 : Int) ∈ (cli_parse_widths (some (strL "0"))).1 ∧
    ¬ (0 : Int) > 0 ∧
    custom_widths (strL "0,-5") = some [0, -5] := by decide

/-- C5 witness: the amended theorem at a concrete negative literal. -/
theorem c5_widths_witness :
    parse_widths_loop [strL "-7"] =
      ((-7 : Int) :: (parse_widths_loop []).1, (parse_widths_loop []).2) :=
  c5_widths_amended.1 (strL "-7") [] (-7) (by decide) (by decide)

/-- Outside the webp crash path the batch loop always completes: every
width is visited in order, a report line is produced for each, and the
counter ends at the accumulator plus the number of True captures. -/
theorem cli_batch_loop_nonwebp (env : Int → BrowserWorld) :
    ∀ (l : List Int) (acc : Nat) (out : List (Int × Bool)),
      cli_batch_loop env false l acc out =
        Except.ok
          (acc +
            (l.filter (fun w => (capture_screenshot (env w) false).ok)).length,
           out.reverse ++
             l.map (fun w => (w, (capture_screenshot (env w) false).ok))) := by
  intro l
  induction l with
  | nil => intro acc out; simp [cli_batch_loop]
  | cons w rest ih =>
    intro acc out
    simp only [cli_batch_loop]
    have hout : output_exists (env w) false = true := rfl
    by_cases h : (capture_screenshot (env w) false).ok
    · rw [if_pos h, if_pos hout, ih]
      simp only [List.filter_cons, h, if_true, List.length_cons,
        List.reverse_cons, List.map_cons, List.append_assoc,
        List.singleton_append, Except.ok.injEq, Prod.mk.injEq]
      exact ⟨by omega, trivial⟩
    · rw [if_neg h, ih]
      have h' : (capture_screenshot (env w) false).ok = false :=
        Bool.not_eq_true _ ▸ Bool.of_not_eq_true h
      simp [List.filter_cons, h']

/-- C6 (code bug).  The batch loop of cli_mode is meant to isolate each
width: captures are wrapped in their own except handler, a failed width
prints a Failed line and the loop continues, and the conversion failure
path of _convert_to_webp deliberately recovers by keeping the png.  But
line 578 runs output_path.stat() unprotected on the success branch: when
webp was requested and the conversion failed or the tool was absent,
capture_screenshot returns True while output_path does not exist, the
stat call raises FileNotFoundError, nothing catches it, the remaining
widths are never attempted and the aggregate of line 584 is never
printed.  The theorem evaluates the faithful model on that failing input
(first conjunct), on the spec's own partial-success example for a
non-webp format (second conjunct), and proves the claimed isolation and
aggregate in general for the non-webp formats where the slip cannot fire
(third conjunct). -/
theorem c6_batch_stat_crash :
    cli_batch_summary
        (fun _ => ⟨true, Except.ok (), Except.ok (), ConvOutcome.toolAbsent⟩)
        true [375, 1920] = Except.error (strL "FileNotFoundError") ∧
    cli_batch_summary
        (fun w => if w = 375
          then ⟨true, Except.error (strL "navigation timeout"), Except.ok (),
            ConvOutcome.success⟩
          else ⟨true, Except.ok (), Except.ok (), ConvOutcome.success⟩)
        false [375, 1920] =
      Except.ok ((1, 2), [(375, false), (1920, true)]) ∧
    (∀ (env : Int → BrowserWorld) (widths : List Int),
      cli_batch_summary env false widths =
        Except.ok
          (((widths.filter
              (fun w => (capture_screenshot (env w) false).ok)).length,
            widths.length),
           widths.map (fun w => (w, (capture_screenshot (env w) false).ok)))) := by
  refine ⟨by decide, by decide, ?_⟩
  intro env widths
  simp only [cli_batch_summary]
  rw [cli_batch_loop_nonwebp]
  simp

/-- C7 (confirmed). When webp output is requested and the browser part
succeeds, the capture goes through the intermediate png and the convert
subprocess: a successful conversion creates the webp and deletes the
intermediate png; an absent or failing tool keeps the png on disk, prints
the recoverable diagnostics, and the capture still returns True. -/
theorem c7_webp_fallback :
    ∀ w : BrowserWorld,
      w.playwrightInstalled = true →
      w.nav = Except.ok () → w.shot = Except.ok () →
      (capture_screenshot w true).ok = true ∧
      (capture_screenshot w true).conv = some (convert_to_webp w.conv) ∧
      (w.conv = ConvOutcome.success →
        (convert_to_webp w.conv).webpCreated = true ∧
        (convert_to_webp w.conv).pngKept = false) ∧
      (w.conv ≠ ConvOutcome.success →
        (convert_to_webp w.conv).webpCreated = false ∧
        (convert_to_webp w.conv).pngKept = true ∧
        (convert_to_webp w.conv).warned = true) := by
  intro w h1 h2 h3
  obtain ⟨pi, nav, shot, conv⟩ := w
  simp only at h1 h2 h3
  subst h1 h2 h3
  refine ⟨rfl, rfl, ?_, ?_⟩
  · intro hc; subst hc; exact ⟨rfl, rfl⟩
  · intro hc
    cases conv with
    | success => exact absurd rfl hc
    | toolAbsent => exact ⟨rfl, rfl, rfl⟩
    | toolFailed => exact ⟨rfl, rfl, rfl⟩

/-- C7 witness: the theorem at a concrete world with the tool absent. -/
theorem c7_webp_fallback_witness :
    (capture_screenshot
      ⟨true, Except.ok (), Except.ok (), ConvOutcome.toolAbsent⟩ true).ok =
      true :=
  (c7_webp_fallback
    ⟨true, Except.ok (), Except.ok (), ConvOutcome.toolAbsent⟩
    rfl rfl rfl).1

/-- C8 (confirmed). The CLI width list maps each comma token: the preset
table is exactly the one the claim lists; a token whose normalized form is
a preset name contributes that preset width; a token whose normalized form
is an integer literal contributes its own value; any other token is
skipped individually, recording a warning, without aborting the rest; and
an empty resulting width list (including an absent or empty --widths
argument) is replaced by the single default width 1920. -/
theorem c8_cli_width_parsing :
    (PRESETS.lookup (strL "mobile") = some 375 ∧
      PRESETS.lookup (strL "tablet") = some 768 ∧
      PRESETS.lookup (strL "small") = some 1024 ∧
      PRESETS.lookup (strL "laptop") = some 1440 ∧
      PRESETS.lookup (strL "medium") = some 1366 ∧
      PRESETS.lookup (strL "desktop") = some 1920 ∧
      PRESETS.lookup (strL "large") = some 2560 ∧
      PRESETS.lookup (strL "ultrawide") = some 3440 ∧
      PRESETS.lookup (strL "presentation") = some 1280) ∧
    (∀ tok ts w, lookupPreset (pyLower (pyStrip tok)) = some w →
      parse_widths_loop (tok :: ts) =
        (w :: (parse_widths_loop ts).1, (parse_widths_loop ts).2)) ∧
    (∀ tok ts n, lookupPreset (pyLower (pyStrip tok)) = none →
      pyInt (pyLower (pyStrip tok)) = some n →
      parse_widths_loop (tok :: ts) =
        (n :: (parse_widths_loop ts).1, (parse_widths_loop ts).2)) ∧
    (∀ tok ts, lookupPreset (pyLower (pyStrip tok)) = none →
      pyInt (pyLower (pyStrip tok)) = none →
      parse_widths_loop (tok :: ts) =
        ((parse_widths_loop ts).1,
          pyLower (pyStrip tok) :: (parse_widths_loop ts).2)) ∧
    (∀ s, s ≠ [] → (parse_widths_loop (pySplit s ',')).1 = [] →
      (cli_parse_widths (some s)).1 = [DEFAULT_WIDTH]) ∧
    (cli_parse_widths none).1 = [DEFAULT_WIDTH] ∧
    (cli_parse_widths (some [])).1 = [DEFAULT_WIDTH] := by
  refine ⟨by decide, ?_, ?_, ?_, ?_, by decide, by decide⟩
  · intro tok ts w h
    simp [parse_widths_loop, h]
  · intro tok ts n h1 h2
    simp [parse_widths_loop, h1, h2]
  · intro tok ts h1 h2
    simp [parse_widths_loop, h1, h2]
  · intro s hs hempty
    simp only [cli_parse_widths]
    rw [if_neg hs]
    simp [hempty]

/-- C8 witness: the preset-token case of the theorem at a concrete
token. -/
theorem c8_cli_width_parsing_witness :
    parse_widths_loop [strL "mobile"] =
      ((375 : Int) :: (parse_widths_loop []).1, (parse_widths_loop []).2) :=
  c8_cli_width_parsing.2.1 (strL "mobile") [] 375 (by decide)

/-- C9 (confirmed). In the interactive menu the index is changed only by
the up and down keys and wraps with Python modulo semantics at both ends:
up at index 0 lands on the last option, down at the last option lands on
0, any other key (including enter and quit, which leave the loop) keeps
the index, and the index always stays inside the option range. -/
theorem c9_menu_wrap :
    ∀ (options : List Str) (selected : Int) (key : Str),
      0 < options.length → 0 ≤ selected →
      selected < (options.length : Int) →
      (key = strL "up" →
        menu_step options selected key =
          (selected - 1) % (options.length : Int)) ∧
      (selected = 0 →
        menu_step options selected (strL "up") =
          (options.length : Int) - 1) ∧
      (selected = (options.length : Int) - 1 →
        menu_step options selected (strL "down") = 0) ∧
      (key ≠ strL "up" → key ≠ strL "down" →
        menu_step options selected key = selected) ∧
      0 ≤ menu_step options selected key ∧
      menu_step options selected key < (options.length : Int) := by
  intro options selected key hn h0 h1
  have hnpos : (0 : Int) < (options.length : Int) := by exact_mod_cast hn
  have hnz : ((options.length : Int)) ≠ 0 := ne_of_gt hnpos
  refine ⟨?_, ?_, ?_, ?_, ?_⟩
  · intro hk; simp [menu_step, hk]
  · intro hsel
    subst hsel
    have e0 : menu_step options 0 (strL "up") =
        ((0 : Int) - 1) % (options.length : Int) := by
      simp [menu_step]
    have e1 : ((0 : Int) - 1) % (options.length : Int) =
        ((options.length : Int) - 1) % (options.length : Int) := by
      have h2 := Int.add_mul_emod_self_left (a := -1)
        (b := (options.length : Int)) (c := 1)
      calc ((0 : Int) - 1) % (options.length : Int)
          = (-1 : Int) % (options.length : Int) := by norm_num
        _ = ((-1) + (options.length : Int) * 1) % (options.length : Int) :=
            h2.symm
        _ = ((options.length : Int) - 1) % (options.length : Int) := by
            ring_nf
    rw [e0, e1, Int.emod_eq_of_lt (by omega) (by omega)]
  · intro hsel
    subst hsel
    have hne : (strL "down" : Str) ≠ strL "up" := by decide
    have e0 : menu_step options ((options.length : Int) - 1) (strL "down") =
        ((options.length : Int) - 1 + 1) % (options.length : Int) := by
      simp [menu_step, hne]
    have e1 : ((options.length : Int) - 1 + 1) = (options.length : Int) := by
      ring
    rw [e0, e1, Int.emod_self]
  · intro hk1 hk2
    simp [menu_step, hk1, hk2]
  · constructor
    · simp only [menu_step]
      by_cases hk1 : key = strL "up"
      · rw [if_pos hk1]; exact Int.emod_nonneg _ hnz
      · rw [if_neg hk1]
        by_cases hk2 : key = strL "down"
        · rw [if_pos hk2]; exact Int.emod_nonneg _ hnz
        · rw [if_neg hk2]; exact h0
    · simp only [menu_step]
      by_cases hk1 : key = strL "up"
      · rw [if_pos hk1]; exact Int.emod_lt_of_pos _ hnpos
      · rw [if_neg hk1]
        by_cases hk2 : key = strL "down"
        · rw [if_pos hk2]; exact Int.emod_lt_of_pos _ hnpos
        · rw [if_neg hk2]; exact h1

/-- C9 witness: up at index 0 of the five-option menu wraps to the last
index. -/
theorem c9_menu_wrap_witness :
    menu_step menu_options 0 (strL "up") = (menu_options.length : Int) - 1 :=
  (c9_menu_wrap menu_options 0 (strL "up") (by decide) (by decide)
    (by decide)).2.1 rfl

end Webcapture
